import Mathlib

/-!
Verification of the station-normalisation and distance-ranking pipeline of
the spatial-analysis repository (`weather_api.py`, `distance_calculator.py`,
`main.py`).

JSON-shaped Python values are embedded as `JValue`: Python dicts are
association lists with unique keys (as produced by `json.loads`, which keeps
the last duplicate, so lookup on a unique-key list is unambiguous), JSON
numbers are rationals, and a function whose Python body may raise an uncaught
exception returns `Option` (`none` models the crash).  Caught exceptions
(`try`/`except ...: continue`) are modelled by skipping the record, exactly
as the code does.  The haversine distance is embedded over `ℝ`; the float
arithmetic of the source is read as exact real/rational arithmetic.
-/

namespace SpatialAnalysis

/-- A JSON-shaped Python value: `None`, booleans, numbers (as rationals),
strings, lists and dicts (association lists of string keys). -/
inductive JValue where
  | null
  | bool (b : Bool)
  | num (q : ℚ)
  | str (s : String)
  | arr (elems : List JValue)
  | obj (fields : List (String × JValue))

/-- First binding of a key in a dict's field list (Python dicts have unique
keys, so first and last binding coincide). -/
def lookupField : List (String × JValue) → String → Option JValue
  | [], _ => none
  | (k, v) :: fs, key => if k = key then some v else lookupField fs key

/-- Python `v[key]` on a JSON-shaped value: `some` only when `v` is a dict
that holds `key`; a missing key raises `KeyError` and indexing a non-dict
raises `TypeError`, both modelled as `none`. -/
def JValue.index : JValue → String → Option JValue
  | .obj fs, key => lookupField fs key
  | _, _ => none

/-- Python `v.get(key, default)`: defined only on dicts (`none` models the
`AttributeError` raised by `.get` on a non-dict). -/
def pyGet : JValue → String → JValue → Option JValue
  | .obj fs, key, dflt => some ((lookupField fs key).getD dflt)
  | _, _, _ => none

/-- Python `v.get(key, default)` read as a total function with the default
returned on a non-dict as well; used to state claims, not to embed code. -/
def dictGetD (v : JValue) (key : String) (dflt : JValue) : JValue :=
  match v with
  | .obj fs => (lookupField fs key).getD dflt
  | _ => dflt

/-- Python truthiness of a JSON-shaped value (`if not x`). -/
def JValue.truthy : JValue → Bool
  | .null => false
  | .bool b => b
  | .num q => decide (q ≠ 0)
  | .str s => decide (s ≠ "")
  | .arr es => !es.isEmpty
  | .obj fs => !fs.isEmpty

/-- Python `v == "lit"` for a string literal: true exactly for the equal
string (values of any other type compare unequal to a string). -/
def JValue.eqStr : JValue → String → Bool
  | .str s, t => s == t
  | _, _ => false

/-- Value of a digit run, most significant first. -/
def digitsVal (cs : List Char) : ℕ :=
  cs.foldl (fun n c => 10 * n + (c.toNat - 48)) 0

/-- Decimal literal after the optional sign: digits with at most one point
and at least one digit (`"12"`, `"1.5"`, `".5"`, `"7."`). -/
def parseDecimalCore (cs : List Char) : Option ℚ :=
  let p := cs.span (fun c => c != '.')
  let ip := p.1
  let check : List Char → Option ℚ := fun fp =>
    if (ip ++ fp).all Char.isDigit && !(ip ++ fp).isEmpty then
      some ((digitsVal ip : ℚ) + (digitsVal fp : ℚ) / (10 : ℚ) ^ fp.length)
    else none
  match p.2 with
  | [] => check []
  | _ :: fp => if fp.contains '.' then none else check fp

/-- Python `float(s)` on plain decimal literals: optional sign, then digits
with at most one decimal point.  Exponents, `inf`/`nan` and surrounding
whitespace are not modelled: the pipeline's coordinate and temperature
strings are plain decimals, and every claim treats the parser as opaque. -/
def parseDecimal (s : String) : Option ℚ :=
  match s.toList with
  | '+' :: cs => parseDecimalCore cs
  | '-' :: cs => (parseDecimalCore cs).map (fun q => -q)
  | cs => parseDecimalCore cs

/-- Outcome of Python `float(v)`: a number, a `ValueError` (string that does
not parse) or a `TypeError` (non-convertible type). -/
inductive PyFloat where
  | ok (q : ℚ)
  | valueError
  | typeError

/-- Python `float(v)`: numbers and booleans convert, strings parse as
decimal literals or raise `ValueError`; `None`, lists and dicts raise
`TypeError`. -/
def pyFloat : JValue → PyFloat
  | .num q => .ok q
  | .bool b => .ok (if b then 1 else 0)
  | .str s =>
    match parseDecimal s with
    | some q => .ok q
    | none => .valueError
  | _ => .typeError

/-! ## StationNormalizer: `weather_api.py`, `extract_temperature_data` -/

/-- Python iteration over a JSON-shaped value: the elements of a list, the
characters of a string (each itself a string), the keys of a dict; `None`,
numbers and booleans are not iterable (`TypeError`, modelled as `none`). -/
def iterElems : JValue → Option (List JValue)
  | .arr es => some es
  | .str s => some (s.toList.map (fun c => .str c.toString))
  | .obj fs => some (fs.map (fun kv => .str kv.1))
  | _ => none

/-- Whether a coordinate entry is the WGS84 one:
`coord.get('CoordinateName') == 'WGS84'` (on a dict entry). -/
def isWGS84 : JValue → Bool
  | .obj fs => ((lookupField fs "CoordinateName").getD .null).eqStr "WGS84"
  | _ => false

/-- The coordinate scan of `extract_temperature_data` (`weather_api.py`
lines 85-89): walk the entries, and at the first one whose
`CoordinateName` equals `"WGS84"` take its `StationLatitude` and
`StationLongitude` (`break`).  No match leaves both values `None`; a
non-dict entry raises `AttributeError` (`none`, the station is skipped). -/
def scanCoordinates : List JValue → Option (JValue × JValue)
  | [] => some (.null, .null)
  | c :: cs =>
    match c with
    | .obj fs =>
      if ((lookupField fs "CoordinateName").getD .null).eqStr "WGS84" then
        some ((lookupField fs "StationLatitude").getD .null,
              (lookupField fs "StationLongitude").getD .null)
      else scanCoordinates cs
    | _ => none

/-- The coordinate list of a raw station:
`station.get('GeoInfo', dict()).get('Coordinates', list())` followed by the
Python iteration (`for coord in coordinates`); `none` models the exceptions
that skip the station (non-dict `GeoInfo`, non-iterable `Coordinates`). -/
def coordsListOf (station : JValue) : Option (List JValue) :=
  match station with
  | .obj fs => do
    let cv ← pyGet ((lookupField fs "GeoInfo").getD (.obj [])) "Coordinates" (.arr [])
    iterElems cv
  | _ => none

/-- The field list of a dict; `none` on any other value (the shape on which
Python's attribute/index accesses on it raise). -/
def objFields : JValue → Option (List (String × JValue))
  | .obj fs => some fs
  | _ => none

/-- The `weather_elements` sub-record built by `extract_temperature_data`
(`weather_api.py` lines 92-100): each element fetched by fixed key with
`.get` (missing keys become `None`); `Precipitation` sits one level deeper,
under `Now`.  `none` models a non-dict `WeatherElement` or `Now` value. -/
def extractElements (we : JValue) : Option JValue := do
  let temperature ← pyGet we "AirTemperature" .null
  let humidity ← pyGet we "RelativeHumidity" .null
  let pressure ← pyGet we "AirPressure" .null
  let windSpeed ← pyGet we "WindSpeed" .null
  let windDirection ← pyGet we "WindDirection" .null
  let weather ← pyGet we "Weather" .null
  let nowObj ← pyGet we "Now" (.obj [])
  let precipitation ← pyGet nowObj "Precipitation" .null
  some (.obj [
    ("temperature", temperature), ("humidity", humidity),
    ("pressure", pressure), ("wind_speed", windSpeed),
    ("wind_direction", windDirection), ("weather", weather),
    ("precipitation", precipitation)])

/-- One iteration of the station loop of `extract_temperature_data`
(`weather_api.py` lines 68-102): builds the normalised record; for a dict
station, `none` models an exception raised in the body, which the `except`
branch turns into skipping this station (its handler print,
`station.get(...)`, works on a dict).  A non-dict station also yields
`none` here, but at the loop level it is a crash, not a skip — see
`extractStations`. -/
def extractStation (station : JValue) : Option JValue := do
  let fs ← objFields station
  let geo := (lookupField fs "GeoInfo").getD (.obj [])
  let county ← pyGet geo "CountyName" (.str "")
  let town ← pyGet geo "TownName" (.str "")
  let obsTime ← pyGet ((lookupField fs "ObsTime").getD (.obj [])) "DateTime" (.str "")
  let coords ← coordsListOf (.obj fs)
  let latlon ← scanCoordinates coords
  let elements ← extractElements ((lookupField fs "WeatherElement").getD (.obj []))
  some (.obj [
    ("station_id", (lookupField fs "StationId").getD .null),
    ("station_name", (lookupField fs "StationName").getD (.str "")),
    ("location", .obj [
      ("county", county), ("town", town),
      ("latitude", latlon.1), ("longitude", latlon.2)]),
    ("observation_time", obsTime),
    ("weather_elements", elements)])

/-- The station loop of `extract_temperature_data` (`weather_api.py` lines
67-106).  A dict entry whose processing raises is skipped: the `except
Exception` handler prints via `station.get('StationId', 'Unknown')` and
continues.  A non-dict entry makes that handler itself raise
`AttributeError` (`.get` on a non-dict), uncaught — the whole call dies
(`none`) and the batch is lost. -/
def extractStations : List JValue → Option (List JValue)
  | [] => some []
  | station :: rest =>
    match station with
    | .obj fs =>
      match extractStation (.obj fs), extractStations rest with
      | some rec, some out => some (rec :: out)
      | none, some out => some out
      | _, none => none
    | _ => none

/-- `extract_temperature_data` (`weather_api.py` lines 57-108).  A falsy
document yields the empty list (`if not weather_data: return []`), the
station list is `weather_data.get('records', dict()).get('Station', list())`,
and the loop over it is `extractStations`.  `none` models the uncaught
exceptions: a truthy non-dict document, a non-dict `records` value, a
non-iterable `Station` value, or a non-dict station entry (whose handler
crashes). -/
def extract_temperature_data (weather_data : JValue) : Option (List JValue) :=
  if weather_data.truthy = false then some [] else
  match weather_data with
  | .obj fs =>
    match (lookupField fs "records").getD (.obj []) with
    | .obj rs => do
      let stations ← iterElems ((lookupField rs "Station").getD (.arr []))
      extractStations stations
    | _ => none
  | _ => none

/-! ## DistanceRanker: `distance_calculator.py` -/

/-- `math.radians`: decimal degrees to radians. -/
noncomputable def radians (x : ℝ) : ℝ := x * (Real.pi / 180)

/-- `haversine_distance` (`distance_calculator.py` lines 5-29): all four
angles are converted to radians first, then
`a = sin(dlat/2)^2 + cos(lat1)*cos(lat2)*sin(dlon/2)^2`,
`c = 2*asin(sqrt(a))`, and the result is `c * r` with `r = 6371`; the value
is returned at full precision, with no rounding. -/
noncomputable def haversine_distance (lat1 lon1 lat2 lon2 : ℝ) : ℝ :=
  let lat1r := radians lat1
  let lon1r := radians lon1
  let lat2r := radians lat2
  let lon2r := radians lon2
  let dlat := lat2r - lat1r
  let dlon := lon2r - lon1r
  let a := Real.sin (dlat / 2) ^ 2 +
    Real.cos lat1r * Real.cos lat2r * Real.sin (dlon / 2) ^ 2
  let c := 2 * Real.arcsin (Real.sqrt a)
  c * 6371

/-- The distance formula exactly as the spec words it (section 4.2):
`R * (2 * asin(sqrt(sin^2(dlat/2) + cos(lat1)*cos(lat2)*sin^2(dlon/2))))`
with `R = 6371` and every angle converted from decimal degrees to radians
before any trigonometric use.  Written from the spec, to be compared with
the source's `haversine_distance`. -/
noncomputable def specHaversineFormula (lat1 lon1 lat2 lon2 : ℝ) : ℝ :=
  6371 * (2 * Real.arcsin (Real.sqrt (
    Real.sin ((radians lat2 - radians lat1) / 2) ^ 2 +
    Real.cos (radians lat1) * Real.cos (radians lat2) *
      Real.sin ((radians lon2 - radians lon1) / 2) ^ 2)))

/-- Python `round(x, 2)` as a rational: the nearest multiple of `1/100`.
Ties are modelled as rounding up; Python rounds exact ties to even, a
difference visible only at exact midpoints and immaterial to every claim
(no claim evaluates the rounding at a tie). -/
noncomputable def round2 (x : ℝ) : ℚ := (round (x * 100) : ℤ) / 100

/-- The `kilometers` number stored by `calculate_distances_to_taipei_station`:
the haversine distance from the station to the reference point, rounded to
two decimal places. -/
noncomputable def kilometersValue (lat lon tlat tlon : ℚ) : ℚ :=
  round2 (haversine_distance (lat : ℝ) (lon : ℝ) (tlat : ℝ) (tlon : ℝ))

/-- Default reference latitude of `calculate_distances_to_taipei_station`
(`taipei_lat=25.0478`). -/
def taipeiLatDefault : ℚ := 25.0478

/-- Default reference longitude (`taipei_lon=121.5170`). -/
def taipeiLonDefault : ℚ := 121.5170

/-- Lines 48-55 of `calculate_distances_to_taipei_station`: fetch
`station['location']['latitude']` and `['longitude']`, `continue` when
either is falsy, parse both with `float`.  `none` models every way the
station is skipped: the falsy check, or a `KeyError`/`TypeError`/`ValueError`
caught by the `except` branch. -/
def stationCoords (station : JValue) : Option (ℚ × ℚ) :=
  match station.index "location" with
  | none => none
  | some loc =>
    match loc.index "latitude", loc.index "longitude" with
    | some latStr, some lonStr =>
      if latStr.truthy = false || lonStr.truthy = false then none
      else
        match pyFloat latStr, pyFloat lonStr with
        | .ok lat, .ok lon => some (lat, lon)
        | _, _ => none
    | _, _ => none

/-- Python `d[key] = v` on a dict: overwrite in place when the key exists,
append a new binding otherwise. -/
def setKey : List (String × JValue) → String → JValue → List (String × JValue)
  | [], key, v => [(key, v)]
  | (k, w) :: fs, key, v =>
    if k = key then (k, v) :: fs else (k, w) :: setKey fs key v

/-- The value stored under `'distance_to_taipei'` (`distance_calculator.py`
lines 62-68): the rounded kilometres and the reference coordinates used. -/
noncomputable def distanceInfo (lat lon tlat tlon : ℚ) : JValue :=
  .obj [("kilometers", .num (kilometersValue lat lon tlat tlon)),
        ("taipei_station_coords", .obj [
          ("latitude", .num tlat), ("longitude", .num tlon)])]

/-- Lines 61-70: `station.copy()` followed by storing the distance value
under `'distance_to_taipei'`.  A non-dict input is returned unchanged; the
case is unreachable, since `stationCoords` succeeds only on dicts. -/
noncomputable def augmentStation (tlat tlon : ℚ) (station : JValue)
    (lat lon : ℚ) : JValue :=
  match station with
  | .obj fs => .obj (setKey fs "distance_to_taipei" (distanceInfo lat lon tlat tlon))
  | v => v

/-- `calculate_distances_to_taipei_station` (`distance_calculator.py` lines
31-76).  The Python defaults are `taipei_lat=25.0478`, `taipei_lon=121.5170`
(`taipeiLatDefault`/`taipeiLonDefault`); the reference point is passed
explicitly here.  A dict station is processed independently: one whose
coordinates are missing, falsy or unparseable is skipped (`continue`, or a
caught exception plus the handler's print), the rest are copied and
augmented, in input order.  A non-dict element, however, kills the whole
call (`none`): `station['location']` raises `TypeError`, which is caught,
but the handler itself (line 73, `station.get('station_name', 'Unknown')`)
then raises `AttributeError` on the non-dict, uncaught. -/
noncomputable def calculate_distances_to_taipei_station :
    List JValue → ℚ → ℚ → Option (List JValue)
  | [], _, _ => some []
  | station :: rest, tlat, tlon =>
    match station with
    | .obj fs =>
      match stationCoords (.obj fs),
          calculate_distances_to_taipei_station rest tlat tlon with
      | some p, some out => some (augmentStation tlat tlon (.obj fs) p.1 p.2 :: out)
      | none, some out => some out
      | _, none => none
    | _ => none

/-- `x['distance_to_taipei']['kilometers']` as a number.  `none` models the
uncaught exceptions of `print_distance_summary` on a record without a
numeric kilometres value (a missing key raises `KeyError` at the sort,
line 110; a non-numeric value dies in the `:.2f` formatting). -/
def getKm (r : JValue) : Option ℚ :=
  match r.index "distance_to_taipei" with
  | some d =>
    match d.index "kilometers" with
    | some (.num q) => some q
    | _ => none
  | none => none

/-- The kilometre sort key, with a junk default; `print_distance_summary`
only reaches the sort on records whose kilometre value exists. -/
def kmD (r : JValue) : ℚ := (getKm r).getD 0

/-- `sorted(stations_with_distance, key=lambda x: ...kilometers)`: Python's
stable ascending sort by the kilometre key, embedded as a stable merge
sort. -/
def sortByKm (l : List JValue) : List JValue :=
  l.mergeSort (fun a b => decide (kmD a ≤ kmD b))

/-- `sorted(distances)`: ascending sort of the distance values. -/
def sortQ (ds : List ℚ) : List ℚ :=
  ds.mergeSort (fun a b => decide (a ≤ b))

/-- The kilometre value of every record, in input order (`distances`,
line 113); `none` as soon as one record has none (the summary crashes). -/
def extractKms : List JValue → Option (List ℚ)
  | [] => some []
  | r :: rs =>
    match getKm r, extractKms rs with
    | some q, some qs => some (q :: qs)
    | _, _ => none

/-- The distance statistics `print_distance_summary` prints at lines
122-126, together with the record count (line 118). -/
structure DistanceStats where
  count : ℕ
  minKm : ℚ
  maxKm : ℚ
  meanKm : ℚ
  medianKm : ℚ

/-- The complete output of a `print_distance_summary` call that runs to the
end: the statistics plus the two ranked sub-sequences. -/
structure DistanceSummary where
  stats : DistanceStats
  nearest10 : List JValue
  farthest5 : List JValue

/-- Outcome of `print_distance_summary`: `noData` is the empty-input branch
(lines 105-107: a message is printed and the function returns `None`,
without raising); `error` is an uncaught exception before any statistic is
printed (a record without a numeric kilometre value kills the sort at line
110 or the statistics formatting); `statsThenCrash` means the statistics
were printed but a ranked-list display iteration (lines 129-135 or 138-144)
raised, so the listing stops mid-way (the partially printed list prefixes
are not modelled); `ok` carries the fully printed values. -/
inductive SummaryResult where
  | noData
  | error
  | statsThenCrash (st : DistanceStats)
  | ok (s : DistanceSummary)

/-- Whether one record survives a ranked-list display iteration
(`distance_calculator.py` lines 129-135 and 138-144): the iteration reads
`station['weather_elements'].get('temperature', 'N/A')` and formats it with
`{temp:5s}` (so `weather_elements` must be a dict and the temperature must
be absent or a string — a `None` or numeric reading makes `format` raise),
reads `station['location']['county']` and `['town']` (both keys must exist;
their values only pass through `str`), and formats
`{station['station_name']:12s}` (the key must exist and hold a string). -/
def displayable (r : JValue) : Bool :=
  (match r.index "weather_elements" with
    | some (.obj ws) =>
      match lookupField ws "temperature" with
      | none => true
      | some (.str _) => true
      | some _ => false
    | _ => false) &&
  (match r.index "location" with
    | some loc => (loc.index "county").isSome && (loc.index "town").isSome
    | none => false) &&
  (match r.index "station_name" with
    | some (.str _) => true
    | _ => false)

/-- `print_distance_summary` (`distance_calculator.py` lines 98-144):
sorts the records by distance, collects the distance values in input order,
prints `min`, `max`, `sum/len`, `sorted(distances)[len(distances)//2]`
(lines 122-126), and then lists the first 10 of the sorted records and
`sorted_stations[-5:]`; a record in either display window that a display
iteration cannot format makes the call raise after the statistics are
already printed. -/
def print_distance_summary : List JValue → SummaryResult
  | [] => .noData
  | r :: rs =>
    match getKm r, extractKms rs with
    | some d0, some drest =>
      let ds : List ℚ := d0 :: drest
      let sortedStations := sortByKm (r :: rs)
      let sortedDs := sortQ ds
      let st : DistanceStats :=
        ⟨(r :: rs).length, drest.foldl min d0, drest.foldl max d0,
          ds.sum / (ds.length : ℚ), sortedDs.getD (ds.length / 2) 0⟩
      let nearest := sortedStations.take 10
      let farthest := sortedStations.drop (sortedStations.length - 5)
      if (nearest ++ farthest).all displayable then
        .ok ⟨st, nearest, farthest⟩
      else .statsThenCrash st
    | _, _ => .error

/-- The distance statistics a `print_distance_summary` call manages to
print: lines 122-126 run before the ranked-list loops, so the statistics
are printed even when a later display iteration raises. -/
def reportedStats : SummaryResult → Option DistanceStats
  | .ok s => some s.stats
  | .statsThenCrash st => some st
  | _ => none

/-! ## Temperature aggregates: `weather_api.py` summary and `main.py` -/

/-- `d['weather_elements'].get('temperature')` (`weather_api.py` line 148,
`main.py` line 120): `none` models the uncaught `KeyError`/`TypeError` on a
record without a `weather_elements` dict; `some .null` is an absent
temperature. -/
def getTempField (st : JValue) : Option JValue :=
  match st.index "weather_elements" with
  | some we => pyGet we "temperature" .null
  | none => none

/-- The `valid_temps` accumulation of `print_temperature_summary`
(`weather_api.py` lines 146-153): keep `(float(temp), station)` for the
stations whose temperature is truthy and not the sentinel string `"-99"`;
a `ValueError` from `float` skips the station (`except ValueError:
continue`), while a `TypeError` (and a record without `weather_elements`)
is uncaught, modelled as `none`. -/
def valid_temps : List JValue → Option (List (ℚ × JValue))
  | [] => some []
  | d :: ds =>
    match getTempField d, valid_temps ds with
    | some t, some rest =>
      if t.truthy && !(t.eqStr "-99") then
        match pyFloat t with
        | .ok q => some ((q, d) :: rest)
        | .valueError => some rest
        | .typeError => none
      else some rest
    | _, _ => none

/-- The `valid_stations` filter of `main` (`main.py` lines 119-121): keep
the stations whose temperature is truthy and not the sentinel `"-99"`. -/
def valid_stations : List JValue → Option (List JValue)
  | [] => some []
  | s :: ss =>
    match getTempField s, valid_stations ss with
    | some t, some rest =>
      if t.truthy && !(t.eqStr "-99") then some (s :: rest) else some rest
    | _, _ => none

/-- The `temps` comprehension of `main` (`main.py` line 124):
`float(s['weather_elements']['temperature'])` over the valid stations; any
`float` failure is uncaught (`none`).  `main` then prints `sum/len`, `max`
and `min` of this list: these are the temperature aggregates. -/
def mainTemps : List JValue → Option (List ℚ)
  | [] => some []
  | s :: ss =>
    match (s.index "weather_elements").bind (fun we => we.index "temperature"),
        mainTemps ss with
    | some t, some rest =>
      match pyFloat t with
      | .ok q => some (q :: rest)
      | _ => none
    | _, _ => none

/-! ## Predicates written from the claims (for refutation and amendment) -/

/-- Claim C4's inclusion predicate, written from the claim's words: the
station's latitude and longitude are both present and parse as floats. -/
def presentAndParses (station : JValue) : Bool :=
  match station.index "location" with
  | some loc =>
    match loc.index "latitude", loc.index "longitude" with
    | some la, some lo =>
      match pyFloat la, pyFloat lo with
      | .ok _, .ok _ => true
      | _, _ => false
    | _, _ => false
  | none => false

/-- The amended inclusion predicate of claim C4: both coordinates present,
truthy (so not `None`, the empty string, zero or `False`), and parsing as
floats. -/
def includedStation (station : JValue) : Bool :=
  match station.index "location" with
  | some loc =>
    match loc.index "latitude", loc.index "longitude" with
    | some la, some lo =>
      la.truthy && lo.truthy &&
        (match pyFloat la, pyFloat lo with
          | .ok _, .ok _ => true
          | _, _ => false)
    | _, _ => false
  | none => false

/-- The parsed coordinates of a kept station, with a junk default (used only
to expose the filter/map structure of `calculate_distances_to_taipei_station`
on stations the filter keeps). -/
def coordsOrZero (station : JValue) : ℚ × ℚ :=
  (stationCoords station).getD (0, 0)

/-- Concrete counterexample station for claim C4: latitude present as the
number `0`, which `float` converts, yet the falsy check `if not lat_str`
drops the station. -/
def c4Station : JValue :=
  .obj [("location", .obj [("latitude", .num 0), ("longitude", .num 121)])]

/-! ## Concrete fixtures used by witnesses and counterexamples -/

/-- A station-with-distance record carrying the given kilometre value,
shaped like the records the pipeline produces: a string name, a location
with county and town, a `weather_elements` dict with no temperature (the
listing then prints `'N/A'`), and the distance annotation. -/
def kmRecord (q : ℚ) : JValue :=
  .obj [("station_name", .str "S"),
        ("location", .obj [("county", .str "C"), ("town", .str "T")]),
        ("weather_elements", .obj []),
        ("distance_to_taipei", .obj [("kilometers", .num q)])]

/-- A station-with-distance record whose temperature is `None` — exactly
what the normalizer stores when `AirTemperature` is absent.  The ranked
listing formats it with `{temp:5s}` and raises `TypeError`. -/
def c3Station : JValue :=
  .obj [("station_name", .str "S"),
        ("location", .obj [("county", .str "C"), ("town", .str "T")]),
        ("weather_elements", .obj [("temperature", .null)]),
        ("distance_to_taipei", .obj [("kilometers", .num 7)])]

/-- A well-formed raw station entry for the C8 counterexample. -/
def c8GoodStation : JValue := .obj [("StationId", .str "A")]

/-- A document whose `Station` list holds a well-formed entry followed by
the non-dict entry `42`: the per-station handler crashes on the latter. -/
def c8Doc : JValue :=
  .obj [("records", .obj [("Station", .arr [c8GoodStation, .num 42])])]

/-- The same document without the bad entry. -/
def c8DocGoodOnly : JValue :=
  .obj [("records", .obj [("Station", .arr [c8GoodStation])])]

/-- A minimal normalised record carrying the given temperature value. -/
def tempStation (t : JValue) : JValue :=
  .obj [("station_name", .str "S"),
        ("weather_elements", .obj [("temperature", t)])]

/-- The spec's 3-station sentinel fixture: one station holds the sentinel
string `"-99"`, the other two numeric readings. -/
def sentinelFixture : List JValue :=
  [tempStation (.num 23), tempStation (.str "-99"), tempStation (.num 31)]

/-- A station sitting exactly at integer coordinates (25, 121), given as
JSON numbers (as the upstream API delivers them), for the distance
witnesses. -/
def stationAt2521 : JValue :=
  .obj [("station_name", .str "ref"),
        ("location", .obj [("latitude", .num 25), ("longitude", .num 121)])]

/-- A raw station whose coordinate list has a non-WGS84 entry first, then
two WGS84 entries: the witness for the first-match rule. -/
def rawStationW : JValue :=
  .obj [("StationId", .str "X1"),
        ("GeoInfo", .obj [
          ("CountyName", .str "County"),
          ("Coordinates", .arr [
            .obj [("CoordinateName", .str "TWD67"),
                  ("StationLatitude", .str "99"), ("StationLongitude", .str "99")],
            .obj [("CoordinateName", .str "WGS84"),
                  ("StationLatitude", .str "25"), ("StationLongitude", .str "121")],
            .obj [("CoordinateName", .str "WGS84"),
                  ("StationLatitude", .str "55"), ("StationLongitude", .str "66")]])]),
        ("WeatherElement", .obj [("AirTemperature", .str "20")])]

/-- The record `extract_temperature_data` produces for `rawStationW`. -/
def rawStationWRec : JValue :=
  .obj [
    ("station_id", .str "X1"),
    ("station_name", .str ""),
    ("location", .obj [
      ("county", .str "County"), ("town", .str ""),
      ("latitude", .str "25"), ("longitude", .str "121")]),
    ("observation_time", .str ""),
    ("weather_elements", .obj [
      ("temperature", .str "20"), ("humidity", .null),
      ("pressure", .null), ("wind_speed", .null),
      ("wind_direction", .null), ("weather", .null),
      ("precipitation", .null)])]

/-- The record `extract_temperature_data` produces for an empty raw station
dict: every field at its default. -/
def emptyStationRec : JValue :=
  .obj [
    ("station_id", .null),
    ("station_name", .str ""),
    ("location", .obj [
      ("county", .str ""), ("town", .str ""),
      ("latitude", .null), ("longitude", .null)]),
    ("observation_time", .str ""),
    ("weather_elements", .obj [
      ("temperature", .null), ("humidity", .null),
      ("pressure", .null), ("wind_speed", .null),
      ("wind_direction", .null), ("weather", .null),
      ("precipitation", .null)])]

/-- A raw document whose single station carries a numeric `StationName`:
the counterexample input of claim C10. -/
def c10Doc : JValue :=
  .obj [("records", .obj [("Station", .arr [.obj [("StationName", .num 5)]])])]

/-- The record `extract_temperature_data` produces for `c10Doc`. -/
def c10Record : JValue :=
  .obj [
    ("station_id", .null),
    ("station_name", .num 5),
    ("location", .obj [
      ("county", .str ""), ("town", .str ""),
      ("latitude", .null), ("longitude", .null)]),
    ("observation_time", .str ""),
    ("weather_elements", .obj [
      ("temperature", .null), ("humidity", .null),
      ("pressure", .null), ("wind_speed", .null),
      ("wind_direction", .null), ("weather", .null),
      ("precipitation", .null)])]

/-! ## Helper lemmas -/

theorem lookupField_setKey_self (fs : List (String × JValue)) (k : String) (v : JValue) :
    lookupField (setKey fs k v) k = some v := by
  induction fs with
  | nil => simp [setKey, lookupField]
  | cons kv fs ih =>
    by_cases h : kv.1 = k <;> simp [setKey, lookupField, h, ih]

theorem lookupField_setKey_ne (fs : List (String × JValue)) (k : String) (v : JValue)
    (k2 : String) (h : k2 ≠ k) :
    lookupField (setKey fs k v) k2 = lookupField fs k2 := by
  induction fs with
  | nil =>
    have hne : ¬ k = k2 := fun hk => h hk.symm
    simp [setKey, lookupField, hne]
  | cons kv fs ih =>
    rcases kv with ⟨k1, w⟩
    by_cases hk : k1 = k
    · subst hk
      have hne : ¬ k1 = k2 := fun hk2 => h hk2.symm
      simp [setKey, lookupField, hne]
    · by_cases hk2 : k1 = k2 <;> simp [setKey, lookupField, hk, hk2, ih, h]

theorem index_some_obj {v : JValue} {k : String} {w : JValue}
    (h : v.index k = some w) : ∃ fs, v = JValue.obj fs := by
  cases v with
  | obj fs => exact ⟨fs, rfl⟩
  | null => simp [JValue.index] at h
  | bool b => simp [JValue.index] at h
  | num q => simp [JValue.index] at h
  | str s => simp [JValue.index] at h
  | arr es => simp [JValue.index] at h

theorem foldl_min_le_init (l : List ℚ) : ∀ d : ℚ, l.foldl min d ≤ d := by
  induction l with
  | nil => intro d; exact le_refl d
  | cons x xs ih => intro d; exact le_trans (ih (min d x)) (min_le_left d x)

theorem foldl_min_le_mem (l : List ℚ) : ∀ d x : ℚ, x ∈ l → l.foldl min d ≤ x := by
  induction l with
  | nil => intro d x hx; cases hx
  | cons y ys ih =>
    intro d x hx
    rcases List.mem_cons.mp hx with h | h
    · subst h; exact le_trans (foldl_min_le_init ys (min d x)) (min_le_right d x)
    · exact ih (min d y) x h

theorem foldl_min_mem_or (l : List ℚ) : ∀ d : ℚ, l.foldl min d = d ∨ l.foldl min d ∈ l := by
  induction l with
  | nil => intro d; exact Or.inl rfl
  | cons x xs ih =>
    intro d
    rw [List.foldl_cons]
    rcases ih (min d x) with h | h
    · rcases min_choice d x with hc | hc
      · exact Or.inl (h.trans hc)
      · exact Or.inr (by rw [h, hc]; exact List.mem_cons_self x xs)
    · exact Or.inr (List.mem_cons_of_mem x h)

theorem init_le_foldl_max (l : List ℚ) : ∀ d : ℚ, d ≤ l.foldl max d := by
  induction l with
  | nil => intro d; exact le_refl d
  | cons x xs ih => intro d; exact le_trans (le_max_left d x) (ih (max d x))

theorem mem_le_foldl_max (l : List ℚ) : ∀ d x : ℚ, x ∈ l → x ≤ l.foldl max d := by
  induction l with
  | nil => intro d x hx; cases hx
  | cons y ys ih =>
    intro d x hx
    rcases List.mem_cons.mp hx with h | h
    · subst h; exact le_trans (le_max_right d x) (init_le_foldl_max ys (max d x))
    · exact ih (max d y) x h

theorem foldl_max_mem_or (l : List ℚ) : ∀ d : ℚ, l.foldl max d = d ∨ l.foldl max d ∈ l := by
  induction l with
  | nil => intro d; exact Or.inl rfl
  | cons x xs ih =>
    intro d
    rw [List.foldl_cons]
    rcases ih (max d x) with h | h
    · rcases max_choice d x with hc | hc
      · exact Or.inl (h.trans hc)
      · exact Or.inr (by rw [h, hc]; exact List.mem_cons_self x xs)
    · exact Or.inr (List.mem_cons_of_mem x h)

theorem sortQ_pairwise (ds : List ℚ) : (sortQ ds).Pairwise (fun a b => a ≤ b) := by
  have h := @List.sorted_mergeSort ℚ (fun a b => decide (a ≤ b))
    (fun a b c hab hbc => by
      simp only [decide_eq_true_eq] at hab hbc ⊢
      exact le_trans hab hbc)
    (fun a b => by
      simp only [Bool.or_eq_true, decide_eq_true_eq]
      exact le_total a b)
    ds
  exact h.imp (fun hab => of_decide_eq_true hab)

theorem sortQ_perm (ds : List ℚ) : (sortQ ds).Perm ds :=
  List.mergeSort_perm ds _

theorem sortByKm_pairwise (l : List JValue) :
    (sortByKm l).Pairwise (fun a b => kmD a ≤ kmD b) := by
  have h := @List.sorted_mergeSort JValue (fun a b => decide (kmD a ≤ kmD b))
    (fun a b c hab hbc => by
      simp only [decide_eq_true_eq] at hab hbc ⊢
      exact le_trans hab hbc)
    (fun a b => by
      simp only [Bool.or_eq_true, decide_eq_true_eq]
      exact le_total (kmD a) (kmD b))
    l
  exact h.imp (fun hab => of_decide_eq_true hab)

theorem sortByKm_perm (l : List JValue) : (sortByKm l).Perm l :=
  List.mergeSort_perm l _

theorem extractKms_cons_inv {r : JValue} {rs : List JValue} {d0 : ℚ} {drest : List ℚ}
    (h : extractKms (r :: rs) = some (d0 :: drest)) :
    getKm r = some d0 ∧ extractKms rs = some drest := by
  rcases hq : getKm r with _ | q <;> rcases hqs : extractKms rs with _ | qs <;>
    simp [extractKms, hq, hqs] at h
  exact ⟨congrArg some h.1, congrArg some h.2⟩

/-! ## Claim C1: behaviour of the summary on empty input -/

/-- C1, counterexample: with an empty input sequence,
`print_distance_summary` does not signal any catchable error condition; it
takes the `if not stations_with_distance` branch, prints a notice and
returns `None` — modelled as the `noData` outcome, distinct from the
`error` (uncaught exception) outcome.  No `EmptyInputError` exists anywhere
in the repository. -/
theorem print_summary_empty_silent :
    print_distance_summary [] = SummaryResult.noData := rfl

/-- C1, amended: on an empty input sequence the summarization prints a
notice and completes silently, returning no statistics at all (so no
degenerate zero/NaN values are produced); this silent no-data outcome
occurs exactly on empty input.  It does not raise a distinct catchable
`EmptyInputError`. -/
theorem print_summary_noData_iff (l : List JValue) :
    print_distance_summary l = SummaryResult.noData ↔ l = [] := by
  cases l with
  | nil => simp [print_distance_summary]
  | cons r rs =>
    constructor
    · intro h
      exfalso
      rcases hq : getKm r with _ | q <;> rcases hk : extractKms rs with _ | ks <;>
        simp only [print_distance_summary, hq, hk] at h <;>
        first
          | exact SummaryResult.noConfusion h
          | (split at h <;> exact SummaryResult.noConfusion h)
    · intro h
      exact absurd h (List.cons_ne_nil r rs)

/-! ## Claim C2: summary statistics -/

theorem reportedStats_ite (c : Prop) [Decidable c] (st : DistanceStats)
    (n f : List JValue) :
    reportedStats (if c then SummaryResult.ok ⟨st, n, f⟩
      else SummaryResult.statsThenCrash st) = some st := by
  split <;> rfl

/-- C2: for every non-empty sequence of station-with-distance records (each
carrying a numeric kilometre value), the printed statistics — lines
122-126, which run before the ranked-list display loops, so they are
reported even when a later display iteration raises — are the minimum,
maximum and arithmetic mean of the distance values, and a median equal to
the element at index `floor(n/2)` of the distances sorted ascending (the
lower median for even `n`, not the average of the two middle elements). -/
theorem summary_statistics (l : List JValue) (d0 : ℚ) (drest : List ℚ)
    (h : extractKms l = some (d0 :: drest)) :
    ∃ st, reportedStats (print_distance_summary l) = some st ∧
      st.minKm ∈ d0 :: drest ∧ (∀ d ∈ d0 :: drest, st.minKm ≤ d) ∧
      st.maxKm ∈ d0 :: drest ∧ (∀ d ∈ d0 :: drest, d ≤ st.maxKm) ∧
      st.meanKm = (d0 :: drest).sum / ((d0 :: drest).length : ℚ) ∧
      (sortQ (d0 :: drest)).Pairwise (fun a b => a ≤ b) ∧
      (sortQ (d0 :: drest)).Perm (d0 :: drest) ∧
      ∃ hi : (d0 :: drest).length / 2 < (sortQ (d0 :: drest)).length,
        st.medianKm = (sortQ (d0 :: drest)).get
          ⟨(d0 :: drest).length / 2, hi⟩ := by
  cases l with
  | nil => simp [extractKms] at h
  | cons r rs =>
    obtain ⟨h1, h2⟩ := extractKms_cons_inv h
    have hlen : (sortQ (d0 :: drest)).length = (d0 :: drest).length :=
      (sortQ_perm (d0 :: drest)).length_eq
    have hi : (d0 :: drest).length / 2 < (sortQ (d0 :: drest)).length := by
      rw [hlen]
      exact Nat.div_lt_self (Nat.succ_pos _) one_lt_two
    refine ⟨⟨(r :: rs).length, drest.foldl min d0, drest.foldl max d0,
        (d0 :: drest).sum / ((d0 :: drest).length : ℚ),
        (sortQ (d0 :: drest)).getD ((d0 :: drest).length / 2) 0⟩,
      ?_, ?_, ?_, ?_, ?_, ?_, ?_, ?_, ⟨hi, ?_⟩⟩
    · simp only [print_distance_summary, h1, h2]
      exact reportedStats_ite _ _ _ _
    · show drest.foldl min d0 ∈ d0 :: drest
      rcases foldl_min_mem_or drest d0 with hm | hm
      · rw [hm]; exact List.mem_cons_self _ _
      · exact List.mem_cons_of_mem _ hm
    · intro d hd
      show drest.foldl min d0 ≤ d
      rcases List.mem_cons.mp hd with hd | hd
      · rw [hd]; exact foldl_min_le_init drest d0
      · exact foldl_min_le_mem drest d0 d hd
    · show drest.foldl max d0 ∈ d0 :: drest
      rcases foldl_max_mem_or drest d0 with hm | hm
      · rw [hm]; exact List.mem_cons_self _ _
      · exact List.mem_cons_of_mem _ hm
    · intro d hd
      show d ≤ drest.foldl max d0
      rcases List.mem_cons.mp hd with hd | hd
      · rw [hd]; exact init_le_foldl_max drest d0
      · exact mem_le_foldl_max drest d0 d hd
    · rfl
    · exact sortQ_pairwise _
    · exact sortQ_perm _
    · show (sortQ (d0 :: drest)).getD ((d0 :: drest).length / 2) 0 =
        (sortQ (d0 :: drest)).get ⟨(d0 :: drest).length / 2, hi⟩
      rw [List.getD_eq_getElem _ _ hi, List.get_eq_getElem]

/-- C2, witness: the statistics theorem applied to four concrete records
with distances `[1, 2, 3, 4]`: the statistics are reported and the median
is the element at sorted index `floor(4/2) = 2`. -/
theorem summary_statistics_witness :
    ∃ st, reportedStats (print_distance_summary
        [kmRecord 1, kmRecord 2, kmRecord 3, kmRecord 4]) = some st ∧
      st.minKm ∈ [(1 : ℚ), 2, 3, 4] ∧ (∀ d ∈ [(1 : ℚ), 2, 3, 4], st.minKm ≤ d) ∧
      st.maxKm ∈ [(1 : ℚ), 2, 3, 4] ∧ (∀ d ∈ [(1 : ℚ), 2, 3, 4], d ≤ st.maxKm) ∧
      st.meanKm = ([(1 : ℚ), 2, 3, 4]).sum / (([(1 : ℚ), 2, 3, 4]).length : ℚ) ∧
      (sortQ [(1 : ℚ), 2, 3, 4]).Pairwise (fun a b => a ≤ b) ∧
      (sortQ [(1 : ℚ), 2, 3, 4]).Perm [(1 : ℚ), 2, 3, 4] ∧
      ∃ hi : ([(1 : ℚ), 2, 3, 4]).length / 2 < (sortQ [(1 : ℚ), 2, 3, 4]).length,
        st.medianKm = (sortQ [(1 : ℚ), 2, 3, 4]).get
          ⟨([(1 : ℚ), 2, 3, 4]).length / 2, hi⟩ :=
  summary_statistics [kmRecord 1, kmRecord 2, kmRecord 3, kmRecord 4] 1 [2, 3, 4] rfl

/-! ## Claim C3: nearest-10 and farthest-5 sub-sequences -/

/-- C3, counterexample: on a single station-with-distance record whose
temperature is `None` — exactly what the normalizer stores when
`AirTemperature` is absent — the summary does not return the available
record: the nearest-10 iteration formats the temperature with `{temp:5s}`
and raises `TypeError` after the statistics are printed, so no ranked list
is produced; "all available records are returned rather than an error
being raised" fails on in-domain input. -/
theorem summary_ranking_counterexample :
    (∃ st, print_distance_summary [c3Station] =
      SummaryResult.statsThenCrash st) ∧
    ∀ s, print_distance_summary [c3Station] ≠ SummaryResult.ok s := by
  have hsort : sortByKm [c3Station] = [c3Station] := List.mergeSort_singleton _
  have hcond : ((sortByKm [c3Station]).take 10 ++
      (sortByKm [c3Station]).drop ((sortByKm [c3Station]).length - 5)).all
        displayable = false := by
    rw [hsort]
    rfl
  have hkm : getKm c3Station = some 7 := rfl
  have hnil : extractKms ([] : List JValue) = some [] := rfl
  have hp : ∃ st, print_distance_summary [c3Station] =
      SummaryResult.statsThenCrash st := by
    simp only [print_distance_summary, hkm, hnil, hcond, Bool.false_eq_true,
      if_false]
    exact ⟨_, rfl⟩
  rcases hp with ⟨st, hst⟩
  refine ⟨⟨st, hst⟩, fun s hs => ?_⟩
  rw [hst] at hs
  exact SummaryResult.noConfusion hs

/-- C3, amended: for every non-empty sequence of station-with-distance
records all of which the display loop can format (string name, location
with county and town, temperature absent or a string), the call completes
and the nearest-10 list is the first 10 elements of the sequence sorted
ascending by distance, the farthest-5 list is the last 5 elements of that
same ascending sort kept in ascending order (so its index 0 is the
5th-farthest station, not the farthest), and with fewer than 10 (resp. 5)
records all available records are returned.  When some record in a display
window cannot be formatted, the call raises mid-listing instead of
returning the lists. -/
theorem summary_ranking (l : List JValue) (d0 : ℚ) (drest : List ℚ)
    (h : extractKms l = some (d0 :: drest))
    (hdisp : ∀ r ∈ l, displayable r = true) :
    ∃ s, print_distance_summary l = SummaryResult.ok s ∧
      (sortByKm l).Perm l ∧
      (sortByKm l).Pairwise (fun a b => kmD a ≤ kmD b) ∧
      s.nearest10 = (sortByKm l).take 10 ∧
      s.farthest5 = (sortByKm l).drop ((sortByKm l).length - 5) ∧
      s.nearest10.length = min 10 l.length ∧
      s.farthest5.length = min 5 l.length ∧
      s.farthest5.Pairwise (fun a b => kmD a ≤ kmD b) := by
  cases l with
  | nil => simp [extractKms] at h
  | cons r rs =>
    obtain ⟨h1, h2⟩ := extractKms_cons_inv h
    have hslen : (sortByKm (r :: rs)).length = (r :: rs).length :=
      (sortByKm_perm (r :: rs)).length_eq
    have hmemS : ∀ x ∈ sortByKm (r :: rs), displayable x = true :=
      fun x hx => hdisp x ((sortByKm_perm (r :: rs)).mem_iff.mp hx)
    have hall : ((sortByKm (r :: rs)).take 10 ++
        (sortByKm (r :: rs)).drop ((sortByKm (r :: rs)).length - 5)).all
          displayable = true := by
      rw [List.all_eq_true]
      intro x hx
      rcases List.mem_append.mp hx with hx | hx
      · exact hmemS x (List.take_subset _ _ hx)
      · exact hmemS x (List.drop_subset _ _ hx)
    refine ⟨⟨⟨(r :: rs).length, drest.foldl min d0, drest.foldl max d0,
        (d0 :: drest).sum / ((d0 :: drest).length : ℚ),
        (sortQ (d0 :: drest)).getD ((d0 :: drest).length / 2) 0⟩,
        (sortByKm (r :: rs)).take 10,
        (sortByKm (r :: rs)).drop ((sortByKm (r :: rs)).length - 5)⟩,
      ?_, sortByKm_perm _, sortByKm_pairwise _, rfl, rfl, ?_, ?_, ?_⟩
    · simp only [print_distance_summary, h1, h2, hall, if_true]
    · show ((sortByKm (r :: rs)).take 10).length = min 10 (r :: rs).length
      rw [List.length_take, hslen]
    · show ((sortByKm (r :: rs)).drop ((sortByKm (r :: rs)).length - 5)).length =
        min 5 (r :: rs).length
      rw [List.length_drop, hslen]
      omega
    · exact (sortByKm_pairwise (r :: rs)).sublist (List.drop_sublist _ _)

/-- C3, witness: the ranking theorem applied to three concrete displayable
records with distances `[30, 10, 20]`: with fewer than 10 (resp. 5)
records, both lists hold all 3 available records, the farthest list in
ascending order. -/
theorem summary_ranking_witness :
    ∃ s, print_distance_summary
        [kmRecord 30, kmRecord 10, kmRecord 20] = SummaryResult.ok s ∧
      (sortByKm [kmRecord 30, kmRecord 10, kmRecord 20]).Perm
        [kmRecord 30, kmRecord 10, kmRecord 20] ∧
      (sortByKm [kmRecord 30, kmRecord 10, kmRecord 20]).Pairwise
        (fun a b => kmD a ≤ kmD b) ∧
      s.nearest10 = (sortByKm [kmRecord 30, kmRecord 10, kmRecord 20]).take 10 ∧
      s.farthest5 = (sortByKm [kmRecord 30, kmRecord 10, kmRecord 20]).drop
        ((sortByKm [kmRecord 30, kmRecord 10, kmRecord 20]).length - 5) ∧
      s.nearest10.length = min 10 ([kmRecord 30, kmRecord 10, kmRecord 20]).length ∧
      s.farthest5.length = min 5 ([kmRecord 30, kmRecord 10, kmRecord 20]).length ∧
      s.farthest5.Pairwise (fun a b => kmD a ≤ kmD b) :=
  summary_ranking [kmRecord 30, kmRecord 10, kmRecord 20] 30 [10, 20] rfl
    (by
      intro r hr
      simp only [List.mem_cons, List.not_mem_nil, or_false] at hr
      rcases hr with rfl | rfl | rfl <;> rfl)

/-! ## Claim C5: the haversine formula -/

/-- C5: for all real decimal-degree inputs, `haversine_distance` equals
`R * 2 * asin(sqrt(sin^2(dlat/2) + cos(lat1)*cos(lat2)*sin^2(dlon/2)))`
with `R = 6371`, every angle converted from degrees to radians before any
trigonometric use, and the full-precision (un-rounded) value returned. -/
theorem haversine_matches_spec (lat1 lon1 lat2 lon2 : ℝ) :
    haversine_distance lat1 lon1 lat2 lon2 =
      specHaversineFormula lat1 lon1 lat2 lon2 := by
  simp only [haversine_distance, specHaversineFormula]
  ring

/-! ## Nonnegativity of the stored distance -/

theorem haversine_nonneg (lat1 lon1 lat2 lon2 : ℝ) :
    0 ≤ haversine_distance lat1 lon1 lat2 lon2 := by
  simp only [haversine_distance]
  have h1 : 0 ≤ Real.arcsin (Real.sqrt
      (Real.sin ((radians lat2 - radians lat1) / 2) ^ 2 +
        Real.cos (radians lat1) * Real.cos (radians lat2) *
          Real.sin ((radians lon2 - radians lon1) / 2) ^ 2)) :=
    Real.arcsin_nonneg.mpr (Real.sqrt_nonneg _)
  linarith

theorem round2_nonneg {x : ℝ} (hx : 0 ≤ x) : 0 ≤ round2 x := by
  simp only [round2]
  have h : (0 : ℤ) ≤ round (x * 100) := by
    rw [round_eq]
    exact Int.floor_nonneg.mpr (by linarith)
  have h2 : (0 : ℚ) ≤ ((round (x * 100) : ℤ) : ℚ) := Int.cast_nonneg.mpr h
  have h3 : (0 : ℚ) ≤ 100 := by norm_num
  exact div_nonneg h2 h3

theorem kilometersValue_nonneg (lat lon tlat tlon : ℚ) :
    0 ≤ kilometersValue lat lon tlat tlon :=
  round2_nonneg (haversine_nonneg _ _ _ _)

/-! ## Structure of `calculate_distances_to_taipei_station` -/

theorem stationCoords_isSome_eq (s : JValue) :
    (stationCoords s).isSome = includedStation s := by
  rcases hl : s.index "location" with _ | loc
  · simp [stationCoords, includedStation, hl]
  · rcases hla : loc.index "latitude" with _ | la
    · simp [stationCoords, includedStation, hl, hla]
    · rcases hlo : loc.index "longitude" with _ | lo
      · simp [stationCoords, includedStation, hl, hla, hlo]
      · cases hta : la.truthy <;> cases hto : lo.truthy <;>
          rcases hfa : pyFloat la with qa | _ | _ <;>
          rcases hfb : pyFloat lo with qb | _ | _ <;>
          simp [stationCoords, includedStation, hl, hla, hlo, hta, hto, hfa, hfb]

theorem stationCoords_some_obj {s : JValue} {p : ℚ × ℚ}
    (h : stationCoords s = some p) : ∃ fs, s = JValue.obj fs := by
  rcases hl : s.index "location" with _ | loc
  · simp [stationCoords, hl] at h
  · exact index_some_obj hl

theorem calculate_all_dict (ws : List JValue) (tlat tlon : ℚ)
    (hd : ∀ s ∈ ws, (objFields s).isSome = true) :
    calculate_distances_to_taipei_station ws tlat tlon =
      some ((ws.filter includedStation).map
        (fun s => augmentStation tlat tlon s (coordsOrZero s).1 (coordsOrZero s).2)) := by
  induction ws with
  | nil => rfl
  | cons s ss ih =>
    have hds := hd s (List.mem_cons_self s ss)
    have hrest : ∀ x ∈ ss, (objFields x).isSome = true :=
      fun x hx => hd x (List.mem_cons_of_mem s hx)
    have hih := ih hrest
    have hinc := stationCoords_isSome_eq s
    cases s with
    | obj fs =>
      rcases hc : stationCoords (JValue.obj fs) with _ | p <;> rw [hc] at hinc
      · simp only [Option.isSome_none] at hinc
        simp [calculate_distances_to_taipei_station, hc, hih,
          List.filter_cons, ← hinc]
      · simp only [Option.isSome_some] at hinc
        simp [calculate_distances_to_taipei_station, hc, hih,
          List.filter_cons, ← hinc, coordsOrZero]
    | null => simp [objFields] at hds
    | bool b => simp [objFields] at hds
    | num q => simp [objFields] at hds
    | str st => simp [objFields] at hds
    | arr es => simp [objFields] at hds

theorem calculate_crash (ws : List JValue) (tlat tlon : ℚ)
    (hbad : ∃ s ∈ ws, objFields s = none) :
    calculate_distances_to_taipei_station ws tlat tlon = none := by
  induction ws with
  | nil =>
    rcases hbad with ⟨s, hs, _⟩
    cases hs
  | cons s ss ih =>
    rcases hbad with ⟨x, hx, hxn⟩
    rcases List.mem_cons.mp hx with hx | hx
    · subst hx
      cases x with
      | obj fs => simp [objFields] at hxn
      | null => rfl
      | bool b => rfl
      | num q => rfl
      | str st => rfl
      | arr es => rfl
    · have hih := ih ⟨x, hx, hxn⟩
      cases s with
      | obj fs =>
        rcases hc : stationCoords (JValue.obj fs) with _ | p <;>
          simp [calculate_distances_to_taipei_station, hc, hih]
      | null => rfl
      | bool b => rfl
      | num q => rfl
      | str st => rfl
      | arr es => rfl

theorem calculate_some_inv (ws : List JValue) (tlat tlon : ℚ) :
    ∀ out, calculate_distances_to_taipei_station ws tlat tlon = some out →
      out.length ≤ ws.length ∧
      ∀ r ∈ out, ∃ s la lo, s ∈ ws ∧ stationCoords s = some (la, lo) ∧
        r = augmentStation tlat tlon s la lo := by
  induction ws with
  | nil =>
    intro out h
    simp only [calculate_distances_to_taipei_station, Option.some.injEq] at h
    subst h
    exact ⟨Nat.le_refl 0, fun r hr => absurd hr (List.not_mem_nil r)⟩
  | cons s ss ih =>
    intro out h
    cases s with
    | obj fs =>
      rcases hrec : calculate_distances_to_taipei_station ss tlat tlon with _ | out2
      · rcases hc : stationCoords (JValue.obj fs) with _ | p <;>
          simp [calculate_distances_to_taipei_station, hc, hrec] at h
      · obtain ⟨hlen2, hmem2⟩ := ih out2 hrec
        rcases hc : stationCoords (JValue.obj fs) with _ | p <;>
          simp only [calculate_distances_to_taipei_station, hc, hrec,
            Option.some.injEq] at h
        · subst h
          refine ⟨Nat.le_succ_of_le hlen2, fun r hr => ?_⟩
          rcases hmem2 r hr with ⟨s2, la, lo, hs2, hco, hre⟩
          exact ⟨s2, la, lo, List.mem_cons_of_mem _ hs2, hco, hre⟩
        · subst h
          refine ⟨by simp only [List.length_cons]; exact Nat.succ_le_succ hlen2,
            fun r hr => ?_⟩
          rcases List.mem_cons.mp hr with hr | hr
          · exact ⟨JValue.obj fs, p.1, p.2, List.mem_cons_self _ _,
              by rw [hc, Prod.mk.eta], hr⟩
          · rcases hmem2 r hr with ⟨s2, la, lo, hs2, hco, hre⟩
            exact ⟨s2, la, lo, List.mem_cons_of_mem _ hs2, hco, hre⟩
    | null => simp [calculate_distances_to_taipei_station] at h
    | bool b => simp [calculate_distances_to_taipei_station] at h
    | num q => simp [calculate_distances_to_taipei_station] at h
    | str st => simp [calculate_distances_to_taipei_station] at h
    | arr es => simp [calculate_distances_to_taipei_station] at h

theorem getKm_augment (fs : List (String × JValue)) (tlat tlon la lo : ℚ) :
    getKm (augmentStation tlat tlon (JValue.obj fs) la lo) =
      some (kilometersValue la lo tlat tlon) := by
  simp [augmentStation, getKm, JValue.index, lookupField_setKey_self,
    distanceInfo, lookupField]

/-! ## Claim C4: filtering and augmentation -/

/-- C4, counterexample: a station whose latitude is the number `0` has both
coordinates present and parseable as floats, yet
`calculate_distances_to_taipei_station` excludes it: the falsy check
`if not lat_str or not lon_str: continue` (line 51) drops any falsy
coordinate value, so "present and parses as a float" is not the exact
inclusion criterion. -/
theorem distance_filter_counterexample :
    presentAndParses c4Station = true ∧
    calculate_distances_to_taipei_station [c4Station]
      taipeiLatDefault taipeiLonDefault = some [] :=
  ⟨rfl, rfl⟩

/-- C4, amended: for every input sequence of dict records and every
reference coordinate, the output exists and contains exactly those input
stations whose latitude and longitude are both present, truthy (not
`None`, the empty string, zero or `False`) and parse as floats — a dict
station missing a coordinate, holding a falsy one, or failing to parse is
filtered out without any error; output order is input order with no sort
or dedup, the output is never longer than the input, and each kept record
stores the haversine distance to the reference rounded to 2 decimal
places, a non-negative value.  An input containing a non-dict element,
however, makes the call raise (the `except` handler itself crashes on it)
instead of producing any output. -/
theorem calculate_distances_behavior (ws : List JValue) (tlat tlon : ℚ) :
    (∀ s : JValue, (stationCoords s).isSome = includedStation s) ∧
    ((∀ s ∈ ws, (objFields s).isSome = true) →
      calculate_distances_to_taipei_station ws tlat tlon =
        some ((ws.filter includedStation).map
          (fun s => augmentStation tlat tlon s (coordsOrZero s).1 (coordsOrZero s).2))) ∧
    ((∃ s ∈ ws, objFields s = none) →
      calculate_distances_to_taipei_station ws tlat tlon = none) ∧
    ∀ out, calculate_distances_to_taipei_station ws tlat tlon = some out →
      out.length ≤ ws.length ∧
      ∀ r ∈ out, ∃ s la lo, s ∈ ws ∧ stationCoords s = some (la, lo) ∧
        r = augmentStation tlat tlon s la lo ∧
        getKm r = some (kilometersValue la lo tlat tlon) ∧
        0 ≤ kilometersValue la lo tlat tlon := by
  refine ⟨stationCoords_isSome_eq, calculate_all_dict ws tlat tlon,
    calculate_crash ws tlat tlon, ?_⟩
  intro out hout
  obtain ⟨hlen, hmem⟩ := calculate_some_inv ws tlat tlon out hout
  refine ⟨hlen, fun r hr => ?_⟩
  rcases hmem r hr with ⟨s, la, lo, hs, hc, hr2⟩
  rcases stationCoords_some_obj hc with ⟨fs, rfl⟩
  exact ⟨_, la, lo, hs, hc, hr2, by rw [hr2, getKm_augment],
    kilometersValue_nonneg _ _ _ _⟩

/-! ## Claim C9: no mutation, pure augmentation -/

/-- C9: `calculate_distances_to_taipei_station` is a pure transform (the
embedding is a function of its input, so the input records are untouched),
and wherever the call produces an output, each output record agrees with
its source input record on every key other than `'distance_to_taipei'`,
under which it stores exactly the distance annotation — i.e. it is a fresh
copy augmented with only the distance information. -/
theorem calculate_no_mutation (ws : List JValue) (tlat tlon : ℚ) :
    ∀ out, calculate_distances_to_taipei_station ws tlat tlon = some out →
      ∀ r ∈ out, ∃ s, s ∈ ws ∧ ∃ la lo : ℚ, stationCoords s = some (la, lo) ∧
        (∀ k : String, k ≠ "distance_to_taipei" → r.index k = s.index k) ∧
        r.index "distance_to_taipei" = some (distanceInfo la lo tlat tlon) := by
  intro out hout r hr
  obtain ⟨_, hmem⟩ := calculate_some_inv ws tlat tlon out hout
  rcases hmem r hr with ⟨s, la, lo, hs, hc, hr2⟩
  rcases stationCoords_some_obj hc with ⟨fs, rfl⟩
  subst hr2
  refine ⟨_, hs, la, lo, hc, ?_, ?_⟩
  · intro k hk
    simp only [augmentStation, JValue.index]
    exact lookupField_setKey_ne fs _ _ k hk
  · simp only [augmentStation, JValue.index]
    exact lookupField_setKey_self fs _ _

/-- C9, witness: the no-mutation theorem applied to a single concrete
station at numeric coordinates `(25, 121)` with reference `(25, 121)`:
its augmented output record agrees with the input everywhere except the
`'distance_to_taipei'` key. -/
theorem calculate_no_mutation_witness :
    ∃ s, s ∈ [stationAt2521] ∧ ∃ la lo : ℚ, stationCoords s = some (la, lo) ∧
      (∀ k : String, k ≠ "distance_to_taipei" →
        (augmentStation 25 121 stationAt2521 25 121).index k = s.index k) ∧
      (augmentStation 25 121 stationAt2521 25 121).index "distance_to_taipei" =
        some (distanceInfo la lo 25 121) :=
  calculate_no_mutation [stationAt2521] 25 121
    [augmentStation 25 121 stationAt2521 25 121] rfl
    (augmentStation 25 121 stationAt2521 25 121) (List.Mem.head _)

/-! ## Claim C6: sentinel handling in temperature aggregates -/

theorem valid_temps_sound (l : List JValue) : ∀ (vt : List (ℚ × JValue)),
    valid_temps l = some vt → ∀ p ∈ vt, ∃ t : JValue,
      getTempField p.2 = some t ∧ t.truthy = true ∧ t.eqStr "-99" = false ∧
      pyFloat t = PyFloat.ok p.1 := by
  induction l with
  | nil =>
    intro vt h p hp
    simp [valid_temps] at h
    subst h
    cases hp
  | cons d ds ih =>
    intro vt h p hp
    rcases ht : getTempField d with _ | t <;>
      rcases hrest : valid_temps ds with _ | rest <;>
        simp only [valid_temps, ht, hrest] at h <;>
        try exact Option.noConfusion h
    cases hb : t.truthy && !(t.eqStr "-99")
    · rw [hb] at h
      simp at h
      subst h
      exact ih rest hrest p hp
    · rw [hb] at h
      simp only [if_true] at h
      rcases hf : pyFloat t with q | _ | _ <;> rw [hf] at h <;> simp at h
      · subst h
        rcases List.mem_cons.mp hp with hp | hp
        · subst hp
          rcases Bool.and_eq_true_iff.mp hb with ⟨hb1, hb2⟩
          exact ⟨t, ht, hb1, by simpa using hb2, hf⟩
        · exact ih rest hrest p hp
      · subst h
        exact ih rest hrest p hp

theorem valid_stations_sound (l : List JValue) : ∀ (vs : List JValue),
    valid_stations l = some vs → ∀ s ∈ vs, ∃ t : JValue,
      getTempField s = some t ∧ t.truthy = true ∧ t.eqStr "-99" = false := by
  induction l with
  | nil =>
    intro vs h s hs
    simp [valid_stations] at h
    subst h
    cases hs
  | cons d ds ih =>
    intro vs h s hs
    rcases ht : getTempField d with _ | t <;>
      rcases hrest : valid_stations ds with _ | rest <;>
        simp only [valid_stations, ht, hrest] at h <;>
        try exact Option.noConfusion h
    cases hb : t.truthy && !(t.eqStr "-99")
    · rw [hb] at h
      simp at h
      subst h
      exact ih rest hrest s hs
    · rw [hb] at h
      simp at h
      subst h
      rcases List.mem_cons.mp hs with hs | hs
      · subst hs
        rcases Bool.and_eq_true_iff.mp hb with ⟨hb1, hb2⟩
        exact ⟨t, ht, hb1, by simpa using hb2⟩
      · exact ih rest hrest s hs

/-- C6: every station whose temperature is the sentinel string `"-99"` is
excluded from both temperature aggregations — the `valid_temps` pairs that
`print_temperature_summary` takes its min/max over, and the
`valid_stations` list that `main` computes its min/max/average temperatures
from; every aggregate contribution comes from a truthy, non-sentinel
reading, so the sentinel is never converted to the numeric value `-99`. -/
theorem sentinel_excluded (l : List JValue) (vt : List (ℚ × JValue)) (vs : List JValue)
    (h1 : valid_temps l = some vt) (h2 : valid_stations l = some vs) :
    (∀ p ∈ vt, ∃ t : JValue, getTempField p.2 = some t ∧ t.truthy = true ∧
      t.eqStr "-99" = false ∧ pyFloat t = PyFloat.ok p.1) ∧
    (∀ s ∈ vs, ∃ t : JValue, getTempField s = some t ∧ t.truthy = true ∧
      t.eqStr "-99" = false) ∧
    (∀ p ∈ vt, getTempField p.2 ≠ some (JValue.str "-99")) ∧
    (∀ s ∈ vs, getTempField s ≠ some (JValue.str "-99")) := by
  refine ⟨valid_temps_sound l vt h1, valid_stations_sound l vs h2, ?_, ?_⟩
  · intro p hp hcon
    rcases valid_temps_sound l vt h1 p hp with ⟨t, ht, _, hne, _⟩
    rw [hcon] at ht
    injection ht with ht
    subst ht
    simp [JValue.eqStr] at hne
  · intro s hs hcon
    rcases valid_stations_sound l vs h2 s hs with ⟨t, ht, _, hne⟩
    rw [hcon] at ht
    injection ht with ht
    subst ht
    simp [JValue.eqStr] at hne

/-- C6, witness: the sentinel theorem applied to the fixed 3-station
fixture, whose middle station holds the sentinel `"-99"`: both aggregate
source lists keep only the two real readings. -/
theorem sentinel_excluded_witness :
    (∀ p ∈ [((23 : ℚ), tempStation (.num 23)), ((31 : ℚ), tempStation (.num 31))],
      ∃ t : JValue, getTempField p.2 = some t ∧ t.truthy = true ∧
        t.eqStr "-99" = false ∧ pyFloat t = PyFloat.ok p.1) ∧
    (∀ s ∈ [tempStation (.num 23), tempStation (.num 31)],
      ∃ t : JValue, getTempField s = some t ∧ t.truthy = true ∧
        t.eqStr "-99" = false) ∧
    (∀ p ∈ [((23 : ℚ), tempStation (.num 23)), ((31 : ℚ), tempStation (.num 31))],
      getTempField p.2 ≠ some (JValue.str "-99")) ∧
    (∀ s ∈ [tempStation (.num 23), tempStation (.num 31)],
      getTempField s ≠ some (JValue.str "-99")) :=
  sentinel_excluded sentinelFixture
    [((23 : ℚ), tempStation (.num 23)), ((31 : ℚ), tempStation (.num 31))]
    [tempStation (.num 23), tempStation (.num 31)] rfl rfl

/-! ## Claim C7: WGS84 coordinate extraction, first match wins -/

theorem scanCoordinates_no_wgs84 (cs : List JValue) : ∀ (p : JValue × JValue),
    scanCoordinates cs = some p → (∀ c ∈ cs, isWGS84 c = false) →
    p.1 = JValue.null ∧ p.2 = JValue.null := by
  induction cs with
  | nil =>
    intro p h _
    simp only [scanCoordinates, Option.some.injEq] at h
    rw [← h]
    exact ⟨rfl, rfl⟩
  | cons c cs ih =>
    intro p h hall
    have hc := hall c (List.mem_cons_self c cs)
    have hrest : ∀ x ∈ cs, isWGS84 x = false :=
      fun x hx => hall x (List.mem_cons_of_mem c hx)
    cases c with
    | obj fs =>
      simp only [isWGS84] at hc
      simp only [scanCoordinates, hc, Bool.false_eq_true, if_false] at h
      exact ih p h hrest
    | null => simp [scanCoordinates] at h
    | bool b => simp [scanCoordinates] at h
    | num q => simp [scanCoordinates] at h
    | str s => simp [scanCoordinates] at h
    | arr es => simp [scanCoordinates] at h

theorem scanCoordinates_first (pre : List JValue) (c : JValue) (post : List JValue) :
    ∀ (p : JValue × JValue), scanCoordinates (pre ++ c :: post) = some p →
    (∀ x ∈ pre, isWGS84 x = false) → isWGS84 c = true →
    p.1 = dictGetD c "StationLatitude" JValue.null ∧
    p.2 = dictGetD c "StationLongitude" JValue.null := by
  induction pre with
  | nil =>
    intro p h _ hc
    cases c with
    | obj fs =>
      simp only [isWGS84] at hc
      simp only [List.nil_append, scanCoordinates, hc, if_true,
        Option.some.injEq] at h
      rw [← h]
      exact ⟨rfl, rfl⟩
    | null => simp [isWGS84] at hc
    | bool b => simp [isWGS84] at hc
    | num q => simp [isWGS84] at hc
    | str s => simp [isWGS84] at hc
    | arr es => simp [isWGS84] at hc
  | cons x pre ih =>
    intro p h hpre hc
    have hx := hpre x (List.mem_cons_self x pre)
    have hrest : ∀ y ∈ pre, isWGS84 y = false :=
      fun y hy => hpre y (List.mem_cons_of_mem x hy)
    cases x with
    | obj fs =>
      simp only [isWGS84] at hx
      simp only [List.cons_append, scanCoordinates, hx, Bool.false_eq_true,
        if_false] at h
      exact ih p h hrest hc
    | null => simp [List.cons_append, scanCoordinates] at h
    | bool b => simp [List.cons_append, scanCoordinates] at h
    | num q => simp [List.cons_append, scanCoordinates] at h
    | str s => simp [List.cons_append, scanCoordinates] at h
    | arr es => simp [List.cons_append, scanCoordinates] at h

theorem objFields_some {station : JValue} {fs : List (String × JValue)}
    (h : objFields station = some fs) : station = JValue.obj fs := by
  cases station with
  | obj g =>
    simp only [objFields, Option.some.injEq] at h
    rw [h]
  | null => simp [objFields] at h
  | bool b => simp [objFields] at h
  | num q => simp [objFields] at h
  | str s => simp [objFields] at h
  | arr es => simp [objFields] at h

theorem extractStation_inv (station rec : JValue)
    (h : extractStation station = some rec) :
    ∃ fs county town obsTime cs latlon elements,
      station = JValue.obj fs ∧
      pyGet ((lookupField fs "GeoInfo").getD (.obj [])) "CountyName" (.str "")
        = some county ∧
      pyGet ((lookupField fs "GeoInfo").getD (.obj [])) "TownName" (.str "")
        = some town ∧
      pyGet ((lookupField fs "ObsTime").getD (.obj [])) "DateTime" (.str "")
        = some obsTime ∧
      coordsListOf (JValue.obj fs) = some cs ∧
      scanCoordinates cs = some latlon ∧
      extractElements ((lookupField fs "WeatherElement").getD (.obj []))
        = some elements ∧
      rec = JValue.obj [
        ("station_id", (lookupField fs "StationId").getD .null),
        ("station_name", (lookupField fs "StationName").getD (.str "")),
        ("location", .obj [
          ("county", county), ("town", town),
          ("latitude", latlon.1), ("longitude", latlon.2)]),
        ("observation_time", obsTime),
        ("weather_elements", elements)] := by
  rcases hfs : objFields station with _ | fs
  · simp [extractStation, hfs] at h
  rcases hc1 : pyGet ((lookupField fs "GeoInfo").getD (.obj []))
      "CountyName" (.str "") with _ | county
  · simp [extractStation, hfs, hc1] at h
  rcases hc2 : pyGet ((lookupField fs "GeoInfo").getD (.obj []))
      "TownName" (.str "") with _ | town
  · simp [extractStation, hfs, hc1, hc2] at h
  rcases hc3 : pyGet ((lookupField fs "ObsTime").getD (.obj []))
      "DateTime" (.str "") with _ | obsTime
  · simp [extractStation, hfs, hc1, hc2, hc3] at h
  rcases hcl : coordsListOf (JValue.obj fs) with _ | cs
  · simp [extractStation, hfs, hc1, hc2, hc3, hcl] at h
  rcases hsc : scanCoordinates cs with _ | latlon
  · simp [extractStation, hfs, hc1, hc2, hc3, hcl, hsc] at h
  rcases hel : extractElements ((lookupField fs "WeatherElement").getD (.obj []))
      with _ | elements
  · simp [extractStation, hfs, hc1, hc2, hc3, hcl, hsc, hel] at h
  simp [extractStation, hfs, hc1, hc2, hc3, hcl, hsc, hel] at h
  exact ⟨fs, county, town, obsTime, cs, latlon, elements, objFields_some hfs,
    hc1, hc2, hc3, hcl, hsc, hel, h.symm⟩

/-- C7: for every raw station entry that the normalizer turns into a
record, the record's latitude and longitude are exactly the values scanned
from the station's coordinate list: the first entry whose coordinate-system
tag equals `"WGS84"` supplies both values (any later WGS84 entries are
ignored), and if no entry carries the tag then latitude and longitude
remain unset (`None`). -/
theorem wgs84_extraction (station rec : JValue)
    (h : extractStation station = some rec) :
    ∃ cs la lo,
      coordsListOf station = some cs ∧
      scanCoordinates cs = some (la, lo) ∧
      (rec.index "location").bind (fun v => v.index "latitude") = some la ∧
      (rec.index "location").bind (fun v => v.index "longitude") = some lo ∧
      ((∀ c ∈ cs, isWGS84 c = false) → la = JValue.null ∧ lo = JValue.null) ∧
      (∀ pre c post, cs = pre ++ c :: post →
        (∀ x ∈ pre, isWGS84 x = false) → isWGS84 c = true →
        la = dictGetD c "StationLatitude" JValue.null ∧
        lo = dictGetD c "StationLongitude" JValue.null) := by
  rcases extractStation_inv station rec h with
    ⟨fs, county, town, obsTime, cs, latlon, elements, hst, hc1, hc2, hc3,
      hcl, hsc, hel, hrec⟩
  refine ⟨cs, latlon.1, latlon.2, ?_, ?_, ?_, ?_, ?_, ?_⟩
  · rw [hst]; exact hcl
  · rw [Prod.mk.eta]; exact hsc
  · rw [hrec]; rfl
  · rw [hrec]; rfl
  · intro hall
    exact scanCoordinates_no_wgs84 cs latlon hsc hall
  · intro pre c post hcs hpre hwc
    subst hcs
    exact scanCoordinates_first pre c post latlon hsc hpre hwc

/-- C7, witness: the WGS84 theorem applied to a concrete raw station whose
coordinate list is a TWD67 entry followed by two WGS84 entries: the
produced record takes latitude `"25"`/longitude `"121"` from the first
WGS84 entry, ignoring the later one. -/
theorem wgs84_extraction_witness :
    ∃ cs la lo,
      coordsListOf rawStationW = some cs ∧
      scanCoordinates cs = some (la, lo) ∧
      (rawStationWRec.index "location").bind (fun v => v.index "latitude")
        = some la ∧
      (rawStationWRec.index "location").bind (fun v => v.index "longitude")
        = some lo ∧
      ((∀ c ∈ cs, isWGS84 c = false) → la = JValue.null ∧ lo = JValue.null) ∧
      (∀ pre c post, cs = pre ++ c :: post →
        (∀ x ∈ pre, isWGS84 x = false) → isWGS84 c = true →
        la = dictGetD c "StationLatitude" JValue.null ∧
        lo = dictGetD c "StationLongitude" JValue.null) :=
  wgs84_extraction rawStationW rawStationWRec rfl

/-! ## Claim C8: lenient document shape, per-station partial failure -/

theorem extractStations_all_dict (sts : List JValue)
    (hd : ∀ s ∈ sts, (objFields s).isSome = true) :
    extractStations sts =
      some ((sts.filter (fun s => (extractStation s).isSome)).map
        (fun s => (extractStation s).getD JValue.null)) := by
  induction sts with
  | nil => rfl
  | cons s ss ih =>
    have hds := hd s (List.mem_cons_self s ss)
    have hih := ih (fun x hx => hd x (List.mem_cons_of_mem s hx))
    cases s with
    | obj fs =>
      rcases hs : extractStation (JValue.obj fs) with _ | rec <;>
        simp [extractStations, hs, hih, List.filter_cons]
    | null => simp [objFields] at hds
    | bool b => simp [objFields] at hds
    | num q => simp [objFields] at hds
    | str st => simp [objFields] at hds
    | arr es => simp [objFields] at hds

theorem extractStations_crash (sts : List JValue)
    (hbad : ∃ s ∈ sts, objFields s = none) :
    extractStations sts = none := by
  induction sts with
  | nil =>
    rcases hbad with ⟨s, hs, _⟩
    cases hs
  | cons s ss ih =>
    rcases hbad with ⟨x, hx, hxn⟩
    rcases List.mem_cons.mp hx with hx | hx
    · subst hx
      cases x with
      | obj fs => simp [objFields] at hxn
      | null => rfl
      | bool b => rfl
      | num q => rfl
      | str st => rfl
      | arr es => rfl
    · have hih := ih ⟨x, hx, hxn⟩
      cases s with
      | obj fs =>
        rcases hs : extractStation (JValue.obj fs) with _ | rec <;>
          simp [extractStations, hs, hih]
      | null => rfl
      | bool b => rfl
      | num q => rfl
      | str st => rfl
      | arr es => rfl

/-- C8, counterexample: a `Station` list holding a well-formed entry
followed by the non-dict entry `42` loses the whole batch: the per-station
`except Exception` handler prints via `station.get('StationId', 'Unknown')`
(weather_api.py line 105), which itself raises `AttributeError` on the
non-dict, uncaught — the call dies instead of skipping that entry, while
the same document without the bad entry yields one record.  This refutes
"a failure while processing one station entry (missing keys, wrong types)
causes only that entry to be skipped, never the whole batch". -/
theorem extract_batch_crash_counterexample :
    extract_temperature_data c8Doc = none ∧
    (∃ rec, extract_temperature_data c8DocGoodOnly = some [rec]) :=
  ⟨rfl, ⟨_, rfl⟩⟩

/-- C8, amended: if the `records` key or the nested `Station` list is
absent, `extract_temperature_data` returns the empty sequence rather than
raising.  On a document whose station list holds only dicts, the output is
the in-order image of exactly those entries whose processing succeeds — a
failing dict entry is skipped alone (the survivors form a sublist, keeping
input order) and the output is never longer than the input.  A non-dict
entry in the station list, however, makes the per-station handler itself
raise, and the whole call aborts with nothing returned. -/
theorem extract_partial_failure :
    (∀ fs : List (String × JValue), lookupField fs "records" = none →
      extract_temperature_data (JValue.obj fs) = some []) ∧
    (∀ fs rs : List (String × JValue),
      lookupField fs "records" = some (JValue.obj rs) →
      lookupField rs "Station" = none →
      extract_temperature_data (JValue.obj fs) = some []) ∧
    (∀ (fs rs : List (String × JValue)) (sts : List JValue),
      lookupField fs "records" = some (JValue.obj rs) →
      lookupField rs "Station" = some (JValue.arr sts) →
      ((∀ s ∈ sts, (objFields s).isSome = true) →
        extract_temperature_data (JValue.obj fs) =
          some ((sts.filter (fun s => (extractStation s).isSome)).map
            (fun s => (extractStation s).getD JValue.null)) ∧
        (sts.filter (fun s => (extractStation s).isSome)).Sublist sts ∧
        ((sts.filter (fun s => (extractStation s).isSome)).map
          (fun s => (extractStation s).getD JValue.null)).length ≤ sts.length) ∧
      ((∃ s ∈ sts, objFields s = none) →
        extract_temperature_data (JValue.obj fs) = none)) := by
  refine ⟨?_, ?_, ?_⟩
  · intro fs h
    cases fs with
    | nil => rfl
    | cons kv fs2 =>
      have ht : JValue.truthy (JValue.obj (kv :: fs2)) = true := by
        simp [JValue.truthy]
      have h0 : lookupField ([] : List (String × JValue)) "Station" = none := rfl
      simp [extract_temperature_data, ht, h, h0, iterElems, extractStations]
  · intro fs rs h1 h2
    cases fs with
    | nil => simp [lookupField] at h1
    | cons kv fs2 =>
      have ht : JValue.truthy (JValue.obj (kv :: fs2)) = true := by
        simp [JValue.truthy]
      simp [extract_temperature_data, ht, h1, h2, iterElems, extractStations]
  · intro fs rs sts h1 h2
    cases fs with
    | nil => simp [lookupField] at h1
    | cons kv fs2 =>
      have ht : JValue.truthy (JValue.obj (kv :: fs2)) = true := by
        simp [JValue.truthy]
      constructor
      · intro hd
        refine ⟨?_, List.filter_sublist _, ?_⟩
        · simp [extract_temperature_data, ht, h1, h2, iterElems,
            extractStations_all_dict sts hd]
        · rw [List.length_map]
          exact List.length_filter_le _ _
      · intro hbad
        simp [extract_temperature_data, ht, h1, h2, iterElems,
          extractStations_crash sts hbad]

/-! ## Claim C10: fixed record schema -/

theorem pyGet_eq_dictGetD {v : JValue} {k : String} {d w : JValue}
    (h : pyGet v k d = some w) : w = dictGetD v k d := by
  cases v with
  | obj fs =>
    simp only [pyGet, Option.some.injEq] at h
    simp [dictGetD, ← h]
  | null => simp [pyGet] at h
  | bool b => simp [pyGet] at h
  | num q => simp [pyGet] at h
  | str s => simp [pyGet] at h
  | arr es => simp [pyGet] at h

theorem extractElements_inv (we el : JValue) (h : extractElements we = some el) :
    ∃ t hm pr wsp wd w prec,
      el = JValue.obj [
        ("temperature", t), ("humidity", hm), ("pressure", pr),
        ("wind_speed", wsp), ("wind_direction", wd), ("weather", w),
        ("precipitation", prec)] := by
  rcases h1 : pyGet we "AirTemperature" .null with _ | t
  · simp [extractElements, h1] at h
  rcases h2 : pyGet we "RelativeHumidity" .null with _ | hm
  · simp [extractElements, h1, h2] at h
  rcases h3 : pyGet we "AirPressure" .null with _ | pr
  · simp [extractElements, h1, h2, h3] at h
  rcases h4 : pyGet we "WindSpeed" .null with _ | wsp
  · simp [extractElements, h1, h2, h3, h4] at h
  rcases h5 : pyGet we "WindDirection" .null with _ | wd
  · simp [extractElements, h1, h2, h3, h4, h5] at h
  rcases h6 : pyGet we "Weather" .null with _ | w
  · simp [extractElements, h1, h2, h3, h4, h5, h6] at h
  rcases h7 : pyGet we "Now" (.obj []) with _ | nowObj
  · simp [extractElements, h1, h2, h3, h4, h5, h6, h7] at h
  rcases h8 : pyGet nowObj "Precipitation" .null with _ | prec
  · simp [extractElements, h1, h2, h3, h4, h5, h6, h7, h8] at h
  simp [extractElements, h1, h2, h3, h4, h5, h6, h7, h8] at h
  exact ⟨t, hm, pr, wsp, wd, w, prec, h.symm⟩

/-- C10, counterexample: on a document whose single raw station carries the
number `5` as `StationName`, the produced record's `station_name` is that
number, not a string — `station.get('StationName', '')` defaults only when
the key is absent and otherwise passes the raw value through unchanged, so
"station_name is always a string" fails. -/
theorem schema_counterexample :
    extract_temperature_data c10Doc = some [c10Record] ∧
    c10Record.index "station_name" = some (JValue.num 5) ∧
    (∀ s : String, JValue.num 5 ≠ JValue.str s) :=
  ⟨rfl, rfl, fun _ h => JValue.noConfusion h⟩

/-- C10, amended: every record produced by `extract_temperature_data` has
exactly the fixed schema — keys `station_id`, `station_name`, `location`
(with exactly `county`, `town`, `latitude`, `longitude`), `observation_time`
and `weather_elements` (with exactly the seven fixed element keys, each
value possibly `None`); `station_id` defaults to `None` and `station_name`,
`county`, `town`, `observation_time` default to the empty string when the
raw field is absent, and otherwise carry the raw value through unchanged
(hence they are strings whenever the raw document supplies strings, but not
in general). -/
theorem extract_schema (station rec : JValue)
    (h : extractStation station = some rec) :
    ∃ sid sname county town la lo obst t hm pr wsp wd w prec,
      rec = JValue.obj [
        ("station_id", sid), ("station_name", sname),
        ("location", JValue.obj [
          ("county", county), ("town", town),
          ("latitude", la), ("longitude", lo)]),
        ("observation_time", obst),
        ("weather_elements", JValue.obj [
          ("temperature", t), ("humidity", hm), ("pressure", pr),
          ("wind_speed", wsp), ("wind_direction", wd), ("weather", w),
          ("precipitation", prec)])] ∧
      sid = dictGetD station "StationId" JValue.null ∧
      sname = dictGetD station "StationName" (JValue.str "") ∧
      county = dictGetD (dictGetD station "GeoInfo" (JValue.obj []))
        "CountyName" (JValue.str "") ∧
      town = dictGetD (dictGetD station "GeoInfo" (JValue.obj []))
        "TownName" (JValue.str "") ∧
      obst = dictGetD (dictGetD station "ObsTime" (JValue.obj []))
        "DateTime" (JValue.str "") := by
  rcases extractStation_inv station rec h with
    ⟨fs, county, town, obsTime, cs, latlon, elements, hst, hc1, hc2, hc3,
      hcl, hsc, hel, hrec⟩
  rcases extractElements_inv _ elements hel with ⟨t, hm, pr, wsp, wd, w, prec, helv⟩
  subst hst
  refine ⟨(lookupField fs "StationId").getD .null,
    (lookupField fs "StationName").getD (.str ""), county, town,
    latlon.1, latlon.2, obsTime, t, hm, pr, wsp, wd, w, prec,
    ?_, rfl, rfl, ?_, ?_, ?_⟩
  · rw [hrec, helv]
  · exact pyGet_eq_dictGetD hc1
  · exact pyGet_eq_dictGetD hc2
  · exact pyGet_eq_dictGetD hc3

/-- C10, witness: the schema theorem applied to the empty raw station dict:
the record exists with every field at its default (`None` station id, empty
strings, unset coordinates, `None` weather elements). -/
theorem extract_schema_witness :
    ∃ sid sname county town la lo obst t hm pr wsp wd w prec,
      emptyStationRec = JValue.obj [
        ("station_id", sid), ("station_name", sname),
        ("location", JValue.obj [
          ("county", county), ("town", town),
          ("latitude", la), ("longitude", lo)]),
        ("observation_time", obst),
        ("weather_elements", JValue.obj [
          ("temperature", t), ("humidity", hm), ("pressure", pr),
          ("wind_speed", wsp), ("wind_direction", wd), ("weather", w),
          ("precipitation", prec)])] ∧
      sid = dictGetD (JValue.obj []) "StationId" JValue.null ∧
      sname = dictGetD (JValue.obj []) "StationName" (JValue.str "") ∧
      county = dictGetD (dictGetD (JValue.obj []) "GeoInfo" (JValue.obj []))
        "CountyName" (JValue.str "") ∧
      town = dictGetD (dictGetD (JValue.obj []) "GeoInfo" (JValue.obj []))
        "TownName" (JValue.str "") ∧
      obst = dictGetD (dictGetD (JValue.obj []) "ObsTime" (JValue.obj []))
        "DateTime" (JValue.str "") :=
  extract_schema (JValue.obj []) emptyStationRec rfl

end SpatialAnalysis
